import Mathlib

/-!
Shallow embedding of the `assay_spec_utils` repository
(`src/assay_spec_utils/{model,parser,util}.py`) and a verification of the
frozen claims about its merge engine.

Conventions of the embedding:
* Python dicts produced by `pydantic.BaseModel.model_dump()` become Lean
  structures whose fields are exactly the model's fields.
* Python floats are modelled as rationals (`Rat`); the `Any`-typed
  parameter value slot is modelled as `String`.
* Fallible code returns `Except PErr`; the constructors of `PErr` mirror
  the Python exception classes that the code can raise (`KeyError`,
  `ValueError`, `IndexError`, `TypeError`, pydantic `ValidationError`).
* In-place mutation of the template registry performed by
  `_resolve_attributes` inside `generate_assays` (parser.py line 161) is
  made explicit: the registry is threaded through and returned, and each
  stored record is tagged `loaded` (state produced by `load_templates`)
  or `resolved` (state after the in-place attribute resolution).
-/

/-- Python exception values that the embedded code can raise. -/
inductive PErr where
  | keyError (key : String)
  | valueError (msg : String)
  | indexError (msg : String)
  | typeError (msg : String)
  | validationError (msg : String)
deriving DecidableEq, Repr

/-- `model.Target`: `{sourceType, accessionId, name}`. -/
structure Target where
  sourceType : String := "UniProt"
  accessionId : String
  name : Option String := none
deriving DecidableEq, Repr

/-- A `(termId, termName)` pair, the element type of the `terms` lists of
attributes, templates, protocols, readouts and assays (`model.py`). -/
abbrev TermPair := String × String

/-- A `(category, name, value, unit)` parameter tuple (`model.py`); the
`Any`-typed value slot is modelled as `String`. -/
abbrev Param := String × String × String × Option String

/-- `model.Attribute`: a reusable bundle of terms and parameters. -/
structure Attribute where
  attributeId : String
  name : Option String := none
  description : Option String := none
  active : Option Bool := some true
  terms : List TermPair := []
  parameters : List Param := []
deriving DecidableEq, Repr

/-- `model.Readout`.  Its fields are exactly `readoutId`, `readoutMode`,
`readoutRange`, `targets`, `attributes`, `terms`, `parameters`; there is
no `readoutType` field. -/
structure Readout where
  readoutId : String
  readoutMode : String := "inhibition"
  readoutRange : Option (Rat × Rat) := some (0, 100)
  targets : List Target := []
  attributes : List String := []
  terms : List TermPair := []
  parameters : List Param := []
deriving DecidableEq, Repr

/-- `model.SubExperiment`: one per-readout-indexed list of optional
sub-experiment values. -/
structure SubExperiment where
  subExpKey : String
  subExpValues : List (Option String) := []
deriving DecidableEq, Repr

/-- `model.DataSourceType`: the tagged-variant discriminator; pydantic
validation at load time restricts `sourceType` to these two values. -/
inductive DataSourceType where
  | screener
  | csv
deriving DecidableEq, Repr

/-- `model.DataSource`: one record holding the fields of both variants,
as in the Python model. -/
structure DataSource where
  sourceType : DataSourceType := .screener
  sessionId : Option String := none
  layerIndices : List (Option Int) := []
  subExperiments : List SubExperiment := []
  sourcePath : Option String := none
  sampleIdColumn : Option String := none
  valueColumns : List (Option String) := []
  sampleMapping : Option String := none
deriving DecidableEq, Repr

/-- `model.Assay`. -/
structure Assay where
  assayId : String
  valueType : String := "AC50"
  attributes : List String := []
  terms : List TermPair := []
  parameters : List Param := []
  datasources : List DataSource := []
deriving DecidableEq, Repr

/-- `model.ProtocolTemplate`. -/
structure ProtocolTemplate where
  templateId : String
  name : Option String := none
  description : Option String := none
  active : Option Bool := some true
  targets : List Target := []
  attributes : List String := []
  terms : List TermPair := []
  parameters : List Param := []
  readouts : List Readout := []
deriving DecidableEq, Repr

/-- `model.AssayProtocol` after `load_protocols` added the
`protocolId` key (parser.py line 46). -/
structure AssayProtocol where
  protocolId : String
  templateId : Option String := none
  targets : List Target := []
  attributes : List String := []
  terms : List TermPair := []
  parameters : List Param := []
  readouts : List Readout := []
  assays : List Assay := []
deriving DecidableEq, Repr

/-- Association-list lookup, modelling a Python dict read (`m[k]`
succeeding iff the key is present). -/
def lookupA (m : List (String × α)) (k : String) : Option α :=
  (m.find? (fun e => e.1 = k)).map Prod.snd

/-- Association-list point update of an existing key, modelling a Python
in-place dict-entry mutation (insertion order is preserved). -/
def updateA (m : List (String × α)) (k : String) (v : α) : List (String × α) :=
  m.map (fun e => if e.1 = k then (k, v) else e)

/-! ## util.py -/

/-- The `mol_factor` table of `util.convert_conc_units`
(util.py lines 8-10). -/
def molUnitFactor : String → Option Rat
  | "M" => some 1
  | "mM" => some (1 / 1000)
  | "uM" => some (1 / 1000000)
  | "nM" => some (1 / 1000000000)
  | "pM" => some (1 / 1000000000000)
  | _ => none

/-- `util.convert_conc_units` (util.py lines 3-33).  The negative-value
check and the molar-unit branch behave as documented, but line 18 reads
`elif unit in gl_factor():`, which *calls* the dict `gl_factor`; for
every unit outside the molar table this raises
`TypeError: 'dict' object is not callable` before the g/L, `v/v%`,
`dilution`, `ratio` and invalid-unit branches (lines 19-33) can run, so
those branches are unreachable. -/
def convert_conc_units (value : Rat) (unit : String) : Except PErr (Rat × String) :=
  if value < 0 then .error (.valueError "concentration should be a positive value")
  else
    match molUnitFactor unit with
    | some f => .ok (value * f, "M")
    | none => .error (.typeError "dict object is not callable")

/-! ## Output data model (model.py lines 137-169) -/

/-- `model.AssaySpecSubExperiment`: the *validated* per-row
sub-experiment entry; note that `subExpValue` is a required `str`, not
an optional one. -/
structure AssaySpecSubExperiment where
  subExpKey : String
  subExpValue : String
deriving DecidableEq, Repr

/-- A raw sub-experiment entry as built by `generate_assays`
(parser.py lines 218-221): `subExpValue` is `subExpValues[ridx]`, which
may be `None`. -/
structure RawSubExp where
  subExpKey : String
  subExpValue : Option String
deriving DecidableEq, Repr

/-- The raw `newd` mapping built per datasource by `generate_assays`
(parser.py lines 209-229), prior to pydantic validation.  Keys that the
loop does not set are `none`/`[]`, matching the defaults that
`model.AssaySpecData` would fill in. -/
structure RowData where
  sourceType : DataSourceType
  sessionId : Option String := none
  layerIndex : Option Int := none
  subExperiment : List RawSubExp := []
  sourcePath : Option String := none
  sampleIdColumn : Option String := none
  valueColumn : Option String := none
  sampleMapping : Option String := none
deriving DecidableEq, Repr

/-- `model.AssaySpecData` after validation. -/
structure AssaySpecData where
  sourceType : DataSourceType
  sessionId : Option String := none
  layerIndex : Option Int := none
  subExperiment : List AssaySpecSubExperiment := []
  sourcePath : Option String := none
  sampleIdColumn : Option String := none
  valueColumn : Option String := none
  sampleMapping : Option String := none
deriving DecidableEq, Repr

/-- The raw row mapping `s` handed to `parse_spec(s, AssaySpec)`
(parser.py line 254).  Its key set is
targets, terms, parameters, protocolId, readoutId, readoutType,
datasources, assayId, valueType. -/
structure RawRow where
  targets : List Target
  terms : List String
  parameters : List Param
  protocolId : String
  readoutId : String
  readoutType : String
  datasources : List RowData
  assayId : String
  valueType : String
deriving DecidableEq, Repr

/-- `model.AssaySpec`: the validated output record. -/
structure AssaySpec where
  protocolId : String
  assayId : String
  readoutId : String
  readoutMode : String := "inhibition"
  readoutRange : Option (Rat × Rat) := some (0, 100)
  valueType : String := "AC50"
  targets : List Target := []
  terms : List String := []
  parameters : List Param := []
  datasources : List AssaySpecData
deriving DecidableEq, Repr

/-! ## Attribute resolution (parser.py lines 128-135) -/

/-- The loop of `_resolve_attributes` (parser.py lines 130-135): for
each referenced `attributeId`, append the attribute's term ids and
parameters; a missing id raises `KeyError(attrid)` at the first failing
lookup (line 131). -/
def resolveAttrsLoop (gattrs : List (String × Attribute)) :
    List String → List String × List Param → Except PErr (List String × List Param)
  | [], acc => .ok acc
  | attrid :: rest, acc =>
    match lookupA gattrs attrid with
    | none => .error (.keyError attrid)
    | some attr =>
        resolveAttrsLoop gattrs rest
          (acc.1 ++ attr.terms.map (fun t => t.1), acc.2 ++ attr.parameters)

/-- `_resolve_attributes(spec, gattrs)` (parser.py lines 128-135),
acting on the `terms`/`parameters`/`attributes` slots of a fragment:
first `spec["terms"]` is replaced by the term ids
(`[t[0] for t in spec["terms"]]`, line 129), then each referenced
attribute's term ids and parameters are appended in list order. -/
def resolve_attributes (gattrs : List (String × Attribute))
    (terms : List TermPair) (parameters : List Param) (attributes : List String) :
    Except PErr (List String × List Param) :=
  resolveAttrsLoop gattrs attributes (terms.map (fun t => t.1), parameters)

/-! ## Template application (parser.py lines 149-169) -/

/-- The `{targets, terms, parameters}` mapping memoized in
`templates_resolved` (parser.py lines 162-166), also the shape of the
working `spec` before protocol-level fields are merged in. -/
structure SpecBase where
  targets : List Target
  terms : List String
  parameters : List Param
deriving DecidableEq, Repr

/-- One entry of the in-memory template registry.  `load_templates`
produces `loaded` records; the first protocol that references a
template mutates the stored record in place via
`_resolve_attributes(tmpl, attributes)` (parser.py line 161), leaving
it in the `resolved` state: its `terms` rewritten to bare term ids with
attribute ids appended and its `parameters` extended by the attribute
parameters (targets and readouts unchanged). -/
inductive TemplateRecord where
  | loaded (t : ProtocolTemplate)
  | resolved (base : SpecBase) (readouts : List Readout)
deriving DecidableEq, Repr

/-- The template registry (the `templates` dict). -/
abbrev Registry := List (String × TemplateRecord)

/-- Parser.py lines 149-169: fetch the protocol's template baseline.
With no `templateId` the baseline is empty.  Otherwise the registry
record is resolved on first use (mutating the registry, memoized; the
guard at line 159 ensures a record is resolved at most once) and the
resolved `{targets, terms, parameters}` and `readouts` are returned;
the caller receives deep copies (pickle round-trips, lines 168-169), so
value semantics is faithful. -/
def applyTemplate (gattrs : List (String × Attribute)) (registry : Registry) :
    Option String → Except PErr (SpecBase × List Readout × Registry)
  | none => .ok ({ targets := [], terms := [], parameters := [] }, [], registry)
  | some tid =>
    match lookupA registry tid with
    | none => .error (.keyError tid)
    | some (.resolved base ros) => .ok (base, ros, registry)
    | some (.loaded t) =>
      match resolve_attributes gattrs t.terms t.parameters t.attributes with
      | .error e => .error e
      | .ok (tms, pms) =>
          let base : SpecBase := { targets := t.targets, terms := tms, parameters := pms }
          .ok (base, t.readouts, updateA registry tid (.resolved base t.readouts))

/-! ## Protocol-level merge step (parser.py lines 171-181) -/

/-- The working spec after protocol-level fields are merged in
(`spec` plus the `protocolId` key, parser.py line 177). -/
structure ProtocolSpec where
  targets : List Target
  terms : List String
  parameters : List Param
  protocolId : String
deriving DecidableEq, Repr

/-- Parser.py lines 171-181: a non-empty protocol-level `targets` list
replaces the baseline's (lines 172-173); the protocol's
attribute-resolved terms and parameters are appended to the baseline's
(lines 174-176); non-empty protocol-level `readouts` replace the
template's (lines 178-179); and if the resulting readout list is empty
while the protocol declares assays, `ValueError` is raised
(lines 180-181). -/
def protocolStep (gattrs : List (String × Attribute)) (base : SpecBase)
    (tmplReadouts : List Readout) (p : AssayProtocol) :
    Except PErr (ProtocolSpec × List Readout) :=
  let targets := if p.targets ≠ [] then p.targets else base.targets
  match resolve_attributes gattrs p.terms p.parameters p.attributes with
  | .error e => .error e
  | .ok (ptms, ppms) =>
    let spec : ProtocolSpec :=
      { targets := targets
        terms := base.terms ++ ptms
        parameters := base.parameters ++ ppms
        protocolId := p.protocolId }
    let readouts := if p.readouts ≠ [] then p.readouts else tmplReadouts
    if readouts = [] ∧ p.assays ≠ [] then
      .error (.valueError "Assays defined but no readouts found.")
    else .ok (spec, readouts)

/-! ## Readout-level merge step (parser.py lines 184-202) -/

/-- The per-accession term-category mapping fetched from UniProt
(`target_term[acc] = {"Function": [...], "Process": [...],
"Component": [...], "ChEBI": [...]}`). -/
structure TargetTerms where
  function : List String
  process : List String
  component : List String
  chebi : List String
deriving DecidableEq, Repr

/-- Parser.py lines 190-195: for each target of the working spec, look
up its term categories (a missing accession raises `KeyError`) and
append Function, Process, Component and ChEBI terms in that order. -/
def targetTermsFold (targetTerm : List (String × TargetTerms)) :
    List Target → List String → Except PErr (List String)
  | [], acc => .ok acc
  | tg :: rest, acc =>
    match lookupA targetTerm tg.accessionId with
    | none => .error (.keyError tg.accessionId)
    | some tt =>
        targetTermsFold targetTerm rest
          (acc ++ tt.function ++ tt.process ++ tt.component ++ tt.chebi)

/-- The key set of the mapping `model.Readout.model_dump()` produces
(model.py lines 47-54). -/
def readoutModelKeys : List String :=
  ["readoutId", "readoutMode", "readoutRange", "targets",
   "attributes", "terms", "parameters"]

/-- `ro["readoutType"]` (parser.py line 202).  The readout mapping's
keys are exactly `readoutModelKeys`; `"readoutType"` is not among them
(`model.Readout` declares `readoutMode`), so this subscript raises
`KeyError("readoutType")` on every readout. -/
def readoutTypeLookup (_ro : Readout) : Except PErr String :=
  .error (.keyError "readoutType")

/-! ## Datasource slicing (parser.py lines 207-229) -/

/-- A Python list subscript `l[i]` for a non-negative index: out of
range raises `IndexError`. -/
def listIndex (l : List α) (i : Nat) : Except PErr α :=
  match l.get? i with
  | some x => .ok x
  | none => .error (.indexError "list index out of range")

/-- Parser.py lines 217-221: build the `subExperiment` entries of a
Screener row, pairing each declared key with `subExpValues[ridx]`
(which may be `None` and is copied as-is). -/
def buildSubExps (ridx : Nat) : List SubExperiment → Except PErr (List RawSubExp)
  | [] => .ok []
  | se :: rest =>
    match listIndex se.subExpValues ridx with
    | .error e => .error e
    | .ok v =>
      match buildSubExps ridx rest with
      | .error e => .error e
      | .ok vs => .ok ({ subExpKey := se.subExpKey, subExpValue := v } :: vs)

/-- Parser.py lines 208-229: slice one datasource at readout index
`ridx`.  `.ok none` models the `continue` branches (lines 211-212 and
223-224): the datasource is silently omitted when its indexed slot is
null.  A Screener row carries sessionId, the single layer index and the
per-readout sub-experiment values (only when `subExperiments` is
non-empty, line 215); a CSV row carries sourcePath, sampleIdColumn and
the single value column; both carry `sampleMapping` (line 228). -/
def sliceDatasource (ridx : Nat) (d : DataSource) : Except PErr (Option RowData) :=
  match d.sourceType with
  | .screener =>
    match listIndex d.layerIndices ridx with
    | .error e => .error e
    | .ok none => .ok none
    | .ok (some idx) =>
      match (if d.subExperiments ≠ [] then buildSubExps ridx d.subExperiments else .ok []) with
      | .error e => .error e
      | .ok subs =>
          .ok (some { sourceType := .screener
                      sessionId := d.sessionId
                      layerIndex := some idx
                      subExperiment := subs
                      sampleMapping := d.sampleMapping })
  | .csv =>
    match listIndex d.valueColumns ridx with
    | .error e => .error e
    | .ok none => .ok none
    | .ok (some col) =>
        .ok (some { sourceType := .csv
                    sourcePath := d.sourcePath
                    sampleIdColumn := d.sampleIdColumn
                    valueColumn := some col
                    sampleMapping := d.sampleMapping })

/-- The `data` accumulation loop (parser.py lines 207-229): omitted
datasources contribute nothing, the rest contribute one row each, in
datasource declaration order. -/
def sliceDatasources (ridx : Nat) : List DataSource → Except PErr (List RowData)
  | [] => .ok []
  | d :: ds =>
    match sliceDatasource ridx d with
    | .error e => .error e
    | .ok none => sliceDatasources ridx ds
    | .ok (some r) =>
      match sliceDatasources ridx ds with
      | .error e => .error e
      | .ok rs => .ok (r :: rs)

/-! ## Row finalization (parser.py lines 240-249) -/

/-- Ordered insertion of a term id into a strictly sorted list,
dropping the insertion when the id is already present.  The comparison
`x.data < y.data` is the lexicographic character order, which is
exactly the strict order `<` on `String`
(`String.lt_iff_toList_lt`). -/
def insertTerm (x : String) : List String → List String
  | [] => [x]
  | y :: ys =>
    if x.data < y.data then x :: y :: ys
    else if x = y then y :: ys
    else y :: insertTerm x ys

/-- `sorted(set(s["terms"]))` (parser.py line 241): the unique strictly
ascending (lexicographic) enumeration of the accumulated term ids. -/
def sortDedup (ts : List String) : List String :=
  ts.foldr insertTerm []

/-- The `(category, name)` dedup key of a parameter
(parser.py line 246: `(p[0], p[1])`). -/
def paramKey (p : Param) : String × String :=
  (p.1, p.2.1)

/-- The scan of parser.py lines 243-248 over the already-reversed
parameter list: keep a parameter when its key has not been seen yet
(`newpks`), in scan order (`newps.append`). -/
def overrideScan : List Param → List (String × String) → List Param
  | [], _ => []
  | p :: rest, seen =>
    if paramKey p ∈ seen then overrideScan rest seen
    else p :: overrideScan rest (paramKey p :: seen)

/-- Parameter override (parser.py lines 242-249): scan the accumulated
parameters from the most recently appended (most specific) end keeping
the first occurrence of each `(category, name)` key, then restore the
original (ascending specificity) order. -/
def overrideParams (ps : List Param) : List Param :=
  (overrideScan ps.reverse []).reverse

/-- The dedup semantics the claims describe, stated in the claims' own
terms: walk the accumulated list from the right, keeping an occurrence
only when no later (more specific) occurrence of its key has been kept.
Used to compare `overrideParams` with the claimed behaviour. -/
def keepMostSpecific (ps : List Param) : List Param :=
  ps.foldr (fun p acc => if paramKey p ∈ acc.map paramKey then acc else p :: acc) []

/-! ## Final validation (parser.py line 254, model.py lines 137-169) -/

/-- Validate the raw sub-experiment entries against
`model.AssaySpecSubExperiment`, whose `subExpValue` field is a required
`str`: a `None` value is a validation error, not an omission. -/
def validateSubExps : List RawSubExp → Except PErr (List AssaySpecSubExperiment)
  | [] => .ok []
  | se :: rest =>
    match se.subExpValue with
    | none => .error (.validationError "subExperiment.subExpValue: Input should be a valid string")
    | some v =>
      match validateSubExps rest with
      | .error e => .error e
      | .ok vs => .ok ({ subExpKey := se.subExpKey, subExpValue := v } :: vs)

/-- Validate one raw datasource row against `model.AssaySpecData`. -/
def validateRowData (r : RowData) : Except PErr AssaySpecData :=
  match validateSubExps r.subExperiment with
  | .error e => .error e
  | .ok subs =>
      .ok { sourceType := r.sourceType
            sessionId := r.sessionId
            layerIndex := r.layerIndex
            subExperiment := subs
            sourcePath := r.sourcePath
            sampleIdColumn := r.sampleIdColumn
            valueColumn := r.valueColumn
            sampleMapping := r.sampleMapping }

def validateRowDatas : List RowData → Except PErr (List AssaySpecData)
  | [] => .ok []
  | r :: rest =>
    match validateRowData r with
    | .error e => .error e
    | .ok v =>
      match validateRowDatas rest with
      | .error e => .error e
      | .ok vs => .ok (v :: vs)

/-- The key set of the row mapping `s` at parser.py line 254. -/
def rawRowKeys : List String :=
  ["targets", "terms", "parameters", "protocolId", "readoutId",
   "readoutType", "datasources", "assayId", "valueType"]

/-- The field set of `model.AssaySpec` (model.py lines 153-168). -/
def assaySpecFields : List String :=
  ["protocolId", "assayId", "readoutId", "readoutMode", "readoutRange",
   "valueType", "targets", "terms", "parameters", "datasources"]

/-- The keys of the raw row that `model.AssaySpec` (declared with
`extra='forbid'`) does not accept. -/
def assaySpecExtraKeys : List String :=
  rawRowKeys.filter (fun k => ¬ assaySpecFields.contains k)

/-- `parse_spec(s, AssaySpec)` (parser.py line 254): pydantic rejects
any extra key (`extra='forbid'`); since the row mapping always carries
the key `"readoutType"`, which is not a field of `model.AssaySpec`,
validation of a finalized row can never succeed.  Fields the row does
not carry (`readoutMode`, `readoutRange`) would be filled with the
model's defaults. -/
def validateAssaySpec (row : RawRow) : Except PErr AssaySpec :=
  if assaySpecExtraKeys ≠ [] then
    .error (.validationError "readoutType: Extra inputs are not permitted")
  else
    match validateRowDatas row.datasources with
    | .error e => .error e
    | .ok ds =>
        .ok { protocolId := row.protocolId
              assayId := row.assayId
              readoutId := row.readoutId
              valueType := row.valueType
              targets := row.targets
              terms := row.terms
              parameters := row.parameters
              datasources := ds }

/-! ## Assay loop and the full merge (parser.py lines 138-257) -/

/-- The working spec at the top of the assay loop: the protocol-level
spec extended with readout-level fields (parser.py lines 184-202).
`readoutType` is the value line 202 would store — the lookup that
produces it always raises, so no `ReadoutSpec` is ever constructed
during a run, but the record is embedded faithfully. -/
structure ReadoutSpec where
  targets : List Target
  terms : List String
  parameters : List Param
  protocolId : String
  readoutId : String
  readoutType : String
deriving DecidableEq, Repr

/-- Parser.py lines 205-255, one assay: slice the datasources at this
readout index; with no contributing datasource skip silently
(lines 230-231); otherwise append assay-level attribute-resolved terms
and parameters (lines 237-239), finalize terms and parameters
(lines 240-249) and validate the row (line 254). -/
def assayBody (gattrs : List (String × Attribute)) (sp : ReadoutSpec) (ridx : Nat)
    (asy : Assay) : Except PErr (Option AssaySpec) :=
  match sliceDatasources ridx asy.datasources with
  | .error e => .error e
  | .ok data =>
    if data = [] then .ok none
    else
      match resolve_attributes gattrs asy.terms asy.parameters asy.attributes with
      | .error e => .error e
      | .ok (atms, apms) =>
        let row : RawRow :=
          { targets := sp.targets
            terms := sortDedup (sp.terms ++ atms)
            parameters := overrideParams (sp.parameters ++ apms)
            protocolId := sp.protocolId
            readoutId := sp.readoutId
            readoutType := sp.readoutType
            datasources := data
            assayId := asy.assayId
            valueType := asy.valueType }
        match validateAssaySpec row with
        | .error e => .error e
        | .ok s => .ok (some s)

/-- The assay loop (parser.py lines 205-255), in declared assay order. -/
def assaysLoop (gattrs : List (String × Attribute)) (sp : ReadoutSpec) (ridx : Nat) :
    List Assay → Except PErr (List AssaySpec)
  | [] => .ok []
  | asy :: rest =>
    match assayBody gattrs sp ridx asy with
    | .error e => .error e
    | .ok none => assaysLoop gattrs sp ridx rest
    | .ok (some s) =>
      match assaysLoop gattrs sp ridx rest with
      | .error e => .error e
      | .ok ss => .ok (s :: ss)

/-- Parser.py lines 184-255, one readout at index `ridx`: apply the
readout-level target override (lines 188-189), enrich with target terms
(lines 190-195), append readout-level attribute-resolved terms and
parameters (lines 198-200), store `readoutId` (line 201), read
`ro["readoutType"]` (line 202) — which raises
`KeyError("readoutType")`, see `readoutTypeLookup` — and then run the
assay loop. -/
def readoutBody (gattrs : List (String × Attribute))
    (targetTerm : List (String × TargetTerms)) (spec : ProtocolSpec)
    (assays : List Assay) (ridx : Nat) (ro : Readout) : Except PErr (List AssaySpec) :=
  let targets := if ro.targets ≠ [] then ro.targets else spec.targets
  match targetTermsFold targetTerm targets spec.terms with
  | .error e => .error e
  | .ok terms1 =>
    match resolve_attributes gattrs ro.terms ro.parameters ro.attributes with
    | .error e => .error e
    | .ok (rtms, rpms) =>
      match readoutTypeLookup ro with
      | .error e => .error e
      | .ok rt =>
          assaysLoop gattrs
            { targets := targets
              terms := terms1 ++ rtms
              parameters := spec.parameters ++ rpms
              protocolId := spec.protocolId
              readoutId := ro.readoutId
              readoutType := rt } ridx assays

/-- The readout loop (parser.py line 184): `enumerate(readouts)` in
declared order, concatenating each readout's rows. -/
def readoutsLoop (gattrs : List (String × Attribute))
    (targetTerm : List (String × TargetTerms)) (spec : ProtocolSpec)
    (assays : List Assay) :
    List (Nat × Readout) → List AssaySpec → Except PErr (List AssaySpec)
  | [], acc => .ok acc
  | (ridx, ro) :: rest, acc =>
    match readoutBody gattrs targetTerm spec assays ridx ro with
    | .error e => .error e
    | .ok rows => readoutsLoop gattrs targetTerm spec assays rest (acc ++ rows)

/-- Parser.py lines 146-255, one protocol: apply the template baseline,
merge protocol-level fields, then run the readout loop.  Returns the
protocol's rows together with the (possibly mutated) template
registry. -/
def processProtocol (gattrs : List (String × Attribute))
    (targetTerm : List (String × TargetTerms)) (registry : Registry)
    (p : AssayProtocol) : Except PErr (List AssaySpec × Registry) :=
  match applyTemplate gattrs registry p.templateId with
  | .error e => .error e
  | .ok (base, tmplReadouts, registry') =>
    match protocolStep gattrs base tmplReadouts p with
    | .error e => .error e
    | .ok (spec, readouts) =>
      match readoutsLoop gattrs targetTerm spec p.assays readouts.enum [] with
      | .error e => .error e
      | .ok rows => .ok (rows, registry')

/-- The protocol loop of `generate_assays` (parser.py line 146),
accumulating `rcds` across protocols in file order. -/
def protocolsLoop (gattrs : List (String × Attribute))
    (targetTerm : List (String × TargetTerms)) :
    List AssayProtocol → List AssaySpec → Registry →
    Except PErr (List AssaySpec × Registry)
  | [], acc, registry => .ok (acc, registry)
  | p :: rest, acc, registry =>
    match processProtocol gattrs targetTerm registry p with
    | .error e => .error e
    | .ok (rows, registry') =>
        protocolsLoop gattrs targetTerm rest (acc ++ rows) registry'

/-- `generate_assays(protocols, templates, attributes, target_term)`
(parser.py lines 138-257).  The returned registry is the state of the
`templates` dict when the function returns, making the in-place
mutation performed at line 161 observable. -/
def generate_assays (protocols : List AssayProtocol) (templates : Registry)
    (attributes : List (String × Attribute))
    (target_term : List (String × TargetTerms)) :
    Except PErr (List AssaySpec × Registry) :=
  protocolsLoop attributes target_term protocols [] templates

/-- The registry evolution realized by one run of `generate_assays`:
each stored template record is either untouched or replaced (in place,
parser.py line 161) by the attribute-resolved version of its loaded
state. -/
def RegStep (gattrs : List (String × Attribute)) (reg reg' : Registry) : Prop :=
  ∀ k, lookupA reg' k = lookupA reg k ∨
    ∃ t tms pms, lookupA reg k = some (.loaded t) ∧
      resolve_attributes gattrs t.terms t.parameters t.attributes = .ok (tms, pms) ∧
      lookupA reg' k = some (.resolved
        { targets := t.targets, terms := tms, parameters := pms } t.readouts)


/-- Whether the string `hay` mentions `needle` as a contiguous
substring (used to state what an error message names). -/
def leadsWith : List Char → List Char → Bool
  | [], _ => true
  | _ :: _, [] => false
  | a :: as, b :: bs => a = b && leadsWith as bs

def strMentions (hay needle : String) : Bool :=
  (List.range (hay.data.length + 1)).any
    (fun i => leadsWith needle.data (hay.data.drop i))


/-! ## Concrete fixtures used by the claim theorems -/

def tmplMut : ProtocolTemplate :=
  { templateId := "tm1", terms := [("GO:0001234", "kinase activity")] }

def protoMut : AssayProtocol :=
  { protocolId := "q1", templateId := some "tm1" }

def regMut0 : Registry := [("tm1", .loaded tmplMut)]

def regMut1 : Registry :=
  [("tm1", .resolved { targets := [], terms := ["GO:0001234"], parameters := [] } [])]

def tmplRO : ProtocolTemplate :=
  { templateId := "tm9", terms := [("GO:0009999", "transport")],
    parameters := [("buffer", "NaCl", "150", some "mM")] }

def protoRO : AssayProtocol :=
  { protocolId := "q9", templateId := some "tm9" }

def regRO0 : Registry := [("tm9", .loaded tmplRO)]

def regRO1 : Registry :=
  [("tm9", .resolved
    { targets := [], terms := ["GO:0009999"],
      parameters := [("buffer", "NaCl", "150", some "mM")] } [])]

def roR0 : Readout := { readoutId := "r0" }

def roR1 : Readout := { readoutId := "r1" }

def roR2 : Readout := { readoutId := "r2" }

def dsScr3 : DataSource :=
  { sourceType := .screener, sessionId := some "sess1",
    layerIndices := [some 5, none, some 7] }

def dsScr1 : DataSource :=
  { sourceType := .screener, sessionId := some "sess2", layerIndices := [some 1] }

def asyScr : Assay := { assayId := "a1", datasources := [dsScr3] }

def protoSlice : AssayProtocol :=
  { protocolId := "p-slice", readouts := [roR0, roR1, roR2], assays := [asyScr] }

def tmplPH : ProtocolTemplate :=
  { templateId := "t-ph", parameters := [("pH", "pH", "7.0", none)] }

def asyPH : Assay :=
  { assayId := "a-ph", parameters := [("pH", "pH", "6.5", none)],
    datasources := [dsScr1] }

def protoPH : AssayProtocol :=
  { protocolId := "p-ph", templateId := some "t-ph", readouts := [roR0],
    assays := [asyPH] }

def protoTerms : AssayProtocol :=
  { protocolId := "p-terms",
    terms := [("t3", "n3"), ("t1", "n1"), ("t3", "n3b"), ("t2", "n2")],
    readouts := [roR0],
    assays := [{ assayId := "a5", datasources := [dsScr1] }] }

def dsSub : DataSource :=
  { sourceType := .screener, sessionId := some "s7", layerIndices := [some 2],
    subExperiments := [{ subExpKey := "day", subExpValues := [some "d1"] }] }

def dsSubNone : DataSource :=
  { sourceType := .screener, sessionId := some "s7", layerIndices := [some 2],
    subExperiments := [{ subExpKey := "day", subExpValues := [none] }] }

def dsCsvSub : DataSource :=
  { sourceType := .csv, sourcePath := some "data.csv",
    sampleIdColumn := some "id", valueColumns := [some "val"],
    subExperiments := [{ subExpKey := "day", subExpValues := [some "d1"] }] }

def protoSub : AssayProtocol :=
  { protocolId := "p-sub", readouts := [roR0],
    assays := [{ assayId := "a7", datasources := [dsSub] }] }

def tmplEmpty : ProtocolTemplate := { templateId := "t-empty" }

def regEmpty0 : Registry := [("t-empty", .loaded tmplEmpty)]

def regEmpty1 : Registry :=
  [("t-empty", .resolved { targets := [], terms := [], parameters := [] } [])]

def protoNoRo : AssayProtocol :=
  { protocolId := "p-noro", templateId := some "t-empty", assays := [asyScr] }

def attrC6 : Attribute :=
  { attributeId := "atr1", terms := [("GO:0002", "g")],
    parameters := [("temp", "temperature", "25", some "degC")] }

def tmplC6 : ProtocolTemplate :=
  { templateId := "t-c6", targets := [{ accessionId := "P00001" }],
    terms := [("GO:0001", "f")],
    parameters := [("buffer", "NaCl", "150", some "mM")],
    attributes := ["atr1"] }

def baseC6 : SpecBase :=
  { targets := [{ accessionId := "P00001" }],
    terms := ["GO:0001", "GO:0002"],
    parameters := [("buffer", "NaCl", "150", some "mM"),
                   ("temp", "temperature", "25", some "degC")] }

def regC6 : Registry := [("t-c6", .loaded tmplC6)]

def regC6' : Registry := [("t-c6", .resolved baseC6 [])]

def protoC6 : AssayProtocol :=
  { protocolId := "p-c6", templateId := some "t-c6",
    targets := [{ accessionId := "P00002" }],
    terms := [("GO:0003", "h")],
    parameters := [("pH", "pH", "7.4", none)] }

def protoMiss : AssayProtocol :=
  { protocolId := "p1", attributes := ["a-miss"] }


/-! ## Lemmas: term sorting and deduplication -/

theorem strData_lt_iff (a b : String) : a.data < b.data ↔ a < b := by
  rw [String.lt_iff_toList_lt]
  exact Iff.rfl

theorem mem_insertTerm (a x : String) (l : List String) :
    a ∈ insertTerm x l ↔ a = x ∨ a ∈ l := by
  induction l with
  | nil => simp [insertTerm]
  | cons y ys ih =>
    by_cases h1 : x.data < y.data
    · simp [insertTerm, h1]
    · by_cases h2 : x = y
      · subst h2
        simp only [insertTerm, h1, if_false, if_true, if_neg, reduceIte]
        constructor
        · exact fun h => Or.inr h
        · rintro (rfl | h)
          · exact List.mem_cons_self a ys
          · exact h
      · simp only [insertTerm, h1, h2, if_false, reduceIte, List.mem_cons, ih]
        tauto

theorem sorted_insertTerm (x : String) (l : List String)
    (hl : l.Sorted (· < ·)) : (insertTerm x l).Sorted (· < ·) := by
  induction l with
  | nil => simp [insertTerm]
  | cons y ys ih =>
    rw [List.sorted_cons] at hl
    obtain ⟨hy, hys⟩ := hl
    by_cases h1 : x.data < y.data
    · rw [insertTerm, if_pos h1, List.sorted_cons]
      refine ⟨?_, by rw [List.sorted_cons]; exact ⟨hy, hys⟩⟩
      intro b hb
      rcases List.mem_cons.mp hb with rfl | hb
      · exact (strData_lt_iff x b).mp h1
      · exact lt_trans ((strData_lt_iff x y).mp h1) (hy b hb)
    · by_cases h2 : x = y
      · rw [insertTerm, if_neg h1, if_pos h2, List.sorted_cons]
        exact ⟨hy, hys⟩
      · rw [insertTerm, if_neg h1, if_neg h2, List.sorted_cons]
        have hyx : y < x := by
          rcases lt_trichotomy x y with h | h | h
          · exact absurd ((strData_lt_iff x y).mpr h) h1
          · exact absurd h h2
          · exact h
        refine ⟨?_, ih hys⟩
        intro b hb
        rcases (mem_insertTerm b x ys).mp hb with rfl | hb
        · exact hyx
        · exact hy b hb

theorem sortDedup_sorted (ts : List String) : (sortDedup ts).Sorted (· < ·) := by
  induction ts with
  | nil => simp [sortDedup]
  | cons t rest ih => exact sorted_insertTerm t _ ih

theorem mem_sortDedup (a : String) (ts : List String) :
    a ∈ sortDedup ts ↔ a ∈ ts := by
  induction ts with
  | nil => simp [sortDedup]
  | cons t rest ih =>
    simp only [sortDedup, List.foldr_cons, List.mem_cons]
    rw [show List.foldr insertTerm [] rest = sortDedup rest from rfl] at *
    rw [mem_insertTerm, ih]

theorem sortDedup_nodup (ts : List String) : (sortDedup ts).Nodup := by
  have h := sortDedup_sorted ts
  exact List.Pairwise.imp (fun hlt => ne_of_lt hlt) h

/-! ## Lemmas: parameter override -/

theorem foldl_keep_eq_overrideScan (r : List Param) :
    ∀ acc : List Param,
      r.foldl (fun acc p => if paramKey p ∈ acc.map paramKey then acc else p :: acc) acc
        = (overrideScan r (acc.map paramKey)).reverse ++ acc := by
  induction r with
  | nil => intro acc; simp [overrideScan]
  | cons p rest ih =>
    intro acc
    by_cases h : paramKey p ∈ acc.map paramKey
    · simp only [List.foldl_cons, overrideScan, h, if_pos, reduceIte]
      exact ih acc
    · simp only [List.foldl_cons, overrideScan, h, if_neg, reduceIte]
      have := ih (p :: acc)
      simp only [List.map_cons] at this
      rw [this, List.reverse_cons, List.append_assoc]
      simp

theorem overrideParams_eq_keepMostSpecific (ps : List Param) :
    overrideParams ps = keepMostSpecific ps := by
  have h1 := foldl_keep_eq_overrideScan ps.reverse ([] : List Param)
  simp only [List.map_nil, List.append_nil] at h1
  have h2 : ps.reverse.foldl
      (fun acc p => if paramKey p ∈ acc.map paramKey then acc else p :: acc) [] =
      keepMostSpecific ps := by
    rw [List.foldl_reverse]
    rfl
  rw [overrideParams, ← h1, h2]

theorem keepMostSpecific_subset (ps : List Param) :
    ∀ p ∈ keepMostSpecific ps, p ∈ ps := by
  induction ps with
  | nil => simp [keepMostSpecific]
  | cons q rest ih =>
    intro p hp
    simp only [keepMostSpecific, List.foldr_cons] at hp
    rw [show List.foldr _ [] rest = keepMostSpecific rest from rfl] at hp
    by_cases h : paramKey q ∈ (keepMostSpecific rest).map paramKey
    · rw [if_pos h] at hp
      exact List.mem_cons_of_mem q (ih p hp)
    · rw [if_neg h] at hp
      rcases List.mem_cons.mp hp with rfl | hp
      · exact List.mem_cons_self p rest
      · exact List.mem_cons_of_mem q (ih p hp)

theorem keepMostSpecific_keys_nodup (ps : List Param) :
    ((keepMostSpecific ps).map paramKey).Nodup := by
  induction ps with
  | nil => simp [keepMostSpecific]
  | cons q rest ih =>
    simp only [keepMostSpecific, List.foldr_cons]
    rw [show List.foldr _ [] rest = keepMostSpecific rest from rfl]
    by_cases h : paramKey q ∈ (keepMostSpecific rest).map paramKey
    · rw [if_pos h]; exact ih
    · rw [if_neg h]
      simp only [List.map_cons, List.nodup_cons]
      exact ⟨h, ih⟩

theorem keepMostSpecific_covers (ps : List Param) :
    ∀ p ∈ ps, paramKey p ∈ (keepMostSpecific ps).map paramKey := by
  induction ps with
  | nil => simp
  | cons q rest ih =>
    intro p hp
    simp only [keepMostSpecific, List.foldr_cons]
    rw [show List.foldr _ [] rest = keepMostSpecific rest from rfl]
    rcases List.mem_cons.mp hp with rfl | hp
    · by_cases h : paramKey p ∈ (keepMostSpecific rest).map paramKey
      · rw [if_pos h]; exact h
      · rw [if_neg h]; simp
    · by_cases h : paramKey q ∈ (keepMostSpecific rest).map paramKey
      · rw [if_pos h]; exact ih p hp
      · rw [if_neg h]
        simp only [List.map_cons, List.mem_cons]
        exact Or.inr (ih p hp)

/-! ## Lemmas: the readout loop always fails, so runs yield no rows -/

theorem readoutBody_error (gattrs : List (String × Attribute))
    (targetTerm : List (String × TargetTerms)) (spec : ProtocolSpec)
    (assays : List Assay) (ridx : Nat) (ro : Readout) :
    ∃ e, readoutBody gattrs targetTerm spec assays ridx ro = .error e := by
  simp only [readoutBody, readoutTypeLookup]
  split
  · exact ⟨_, rfl⟩
  · split
    · exact ⟨_, rfl⟩
    · exact ⟨_, rfl⟩

theorem readoutsLoop_ok (gattrs : List (String × Attribute))
    (targetTerm : List (String × TargetTerms)) (spec : ProtocolSpec)
    (assays : List Assay) :
    ∀ (l : List (Nat × Readout)) (acc v : List AssaySpec),
      readoutsLoop gattrs targetTerm spec assays l acc = .ok v → v = acc := by
  intro l
  cases l with
  | nil =>
    intro acc v h
    simp only [readoutsLoop] at h
    exact (Except.ok.injEq _ _).mp h.symm
  | cons hd tl =>
    intro acc v h
    obtain ⟨ridx, ro⟩ := hd
    obtain ⟨e, he⟩ := readoutBody_error gattrs targetTerm spec assays ridx ro
    simp only [readoutsLoop, he] at h
    exact Except.noConfusion h

theorem processProtocol_ok (gattrs : List (String × Attribute))
    (targetTerm : List (String × TargetTerms)) (registry : Registry)
    (p : AssayProtocol) (rows : List AssaySpec) (registry' : Registry)
    (h : processProtocol gattrs targetTerm registry p = .ok (rows, registry')) :
    rows = [] := by
  simp only [processProtocol] at h
  cases hat : applyTemplate gattrs registry p.templateId with
  | error e =>
    simp only [hat] at h
    exact Except.noConfusion h
  | ok val =>
    obtain ⟨base, tmplReadouts, registry2⟩ := val
    simp only [hat] at h
    cases hps : protocolStep gattrs base tmplReadouts p with
    | error e =>
      simp only [hps] at h
      exact Except.noConfusion h
    | ok val2 =>
      obtain ⟨spec, readouts⟩ := val2
      simp only [hps] at h
      cases hrl : readoutsLoop gattrs targetTerm spec p.assays readouts.enum [] with
      | error e =>
        simp only [hrl] at h
        exact Except.noConfusion h
      | ok rows0 =>
        simp only [hrl] at h
        have h2 : rows0 = rows := by
          have h3 := (Except.ok.injEq _ _).mp h
          exact congrArg Prod.fst h3
        rw [← h2]
        exact readoutsLoop_ok gattrs targetTerm spec p.assays readouts.enum [] rows0 hrl

theorem protocolsLoop_ok (gattrs : List (String × Attribute))
    (targetTerm : List (String × TargetTerms)) :
    ∀ (ps : List AssayProtocol) (acc : List AssaySpec) (registry : Registry)
      (rows : List AssaySpec) (regF : Registry),
      protocolsLoop gattrs targetTerm ps acc registry = .ok (rows, regF) → rows = acc := by
  intro ps
  induction ps with
  | nil =>
    intro acc registry rows regF h
    simp only [protocolsLoop] at h
    have h2 := (Except.ok.injEq _ _).mp h
    have h3 := congrArg Prod.fst h2
    simpa using h3.symm
  | cons p rest ih =>
    intro acc registry rows regF h
    simp only [protocolsLoop] at h
    cases hpp : processProtocol gattrs targetTerm registry p with
    | error e =>
      simp only [hpp] at h
      exact Except.noConfusion h
    | ok val =>
      obtain ⟨rows0, reg0⟩ := val
      simp only [hpp] at h
      have hz : rows0 = [] := processProtocol_ok _ _ _ _ _ _ hpp
      subst hz
      rw [List.append_nil] at h
      exact ih acc reg0 rows regF h

theorem generate_assays_ok_rows (protocols : List AssayProtocol)
    (templates : Registry) (attributes : List (String × Attribute))
    (target_term : List (String × TargetTerms)) (rows : List AssaySpec)
    (regF : Registry)
    (h : generate_assays protocols templates attributes target_term = .ok (rows, regF)) :
    rows = [] :=
  protocolsLoop_ok attributes target_term protocols [] templates rows regF h

/-! ## Lemmas: template registry mutation -/

theorem lookupA_cons (a : String × α) (m : List (String × α)) (k : String) :
    lookupA (a :: m) k = if a.1 = k then some a.2 else lookupA m k := by
  by_cases h : a.1 = k <;> simp [lookupA, List.find?, h]

theorem lookupA_updateA_ne (m : List (String × α)) (k k' : String) (v : α)
    (h : k' ≠ k) : lookupA (updateA m k v) k' = lookupA m k' := by
  induction m with
  | nil => simp [updateA]
  | cons a rest ih =>
    simp only [updateA, List.map_cons]
    by_cases ha : a.1 = k
    · rw [if_pos ha, lookupA_cons, lookupA_cons]
      have h1 : ¬ ((k, v).1 = k') := fun hk => h hk.symm
      have h2 : ¬ (a.1 = k') := by
        intro hk
        rw [hk] at ha
        exact h ha
      rw [if_neg h1, if_neg h2]
      exact ih
    · rw [if_neg ha, lookupA_cons, lookupA_cons]
      by_cases hk : a.1 = k'
      · rw [if_pos hk, if_pos hk]
      · rw [if_neg hk, if_neg hk]
        exact ih

theorem lookupA_updateA_self (m : List (String × α)) (k : String) (v w : α)
    (h : lookupA m k = some w) : lookupA (updateA m k v) k = some v := by
  induction m with
  | nil => simp [lookupA] at h
  | cons a rest ih =>
    simp only [updateA, List.map_cons]
    rw [lookupA_cons] at h
    by_cases ha : a.1 = k
    · rw [if_pos ha, lookupA_cons, if_pos rfl]
    · rw [if_neg ha, lookupA_cons, if_neg ha]
      rw [if_neg ha] at h
      exact ih h

theorem RegStep.refl (gattrs : List (String × Attribute)) (reg : Registry) :
    RegStep gattrs reg reg :=
  fun _ => Or.inl rfl

theorem RegStep.trans {gattrs : List (String × Attribute)} {r1 r2 r3 : Registry}
    (h12 : RegStep gattrs r1 r2) (h23 : RegStep gattrs r2 r3) :
    RegStep gattrs r1 r3 := by
  intro k
  rcases h23 k with h | ⟨t, tms, pms, hl, hres, hl'⟩
  · rcases h12 k with h' | ⟨t, tms, pms, hl, hres, hl'⟩
    · exact Or.inl (h.trans h')
    · exact Or.inr ⟨t, tms, pms, hl, hres, h.trans hl'⟩
  · rcases h12 k with h' | ⟨t', tms', pms', hl2, hres', hl2'⟩
    · exact Or.inr ⟨t, tms, pms, h'.symm.trans hl, hres, hl'⟩
    · rw [hl2'] at hl
      exact absurd hl (by simp)

theorem applyTemplate_regStep (gattrs : List (String × Attribute))
    (registry : Registry) (tid : Option String) (base : SpecBase)
    (ros : List Readout) (registry' : Registry)
    (h : applyTemplate gattrs registry tid = .ok (base, ros, registry')) :
    RegStep gattrs registry registry' := by
  cases tid with
  | none =>
    simp only [applyTemplate, Except.ok.injEq, Prod.mk.injEq] at h
    obtain ⟨-, -, hreg⟩ := h
    rw [hreg] at *
    exact RegStep.refl gattrs registry'
  | some t =>
    simp only [applyTemplate] at h
    cases hl : lookupA registry t with
    | none =>
      simp only [hl] at h
      exact Except.noConfusion h
    | some record =>
      cases record with
      | resolved b r =>
        simp only [hl, Except.ok.injEq, Prod.mk.injEq] at h
        obtain ⟨-, -, hreg⟩ := h
        rw [hreg] at *
        exact RegStep.refl gattrs registry'
      | loaded tp =>
        simp only [hl] at h
        cases hres : resolve_attributes gattrs tp.terms tp.parameters tp.attributes with
        | error e =>
          simp only [hres] at h
          exact Except.noConfusion h
        | ok val =>
          obtain ⟨tms, pms⟩ := val
          simp only [hres, Except.ok.injEq, Prod.mk.injEq] at h
          obtain ⟨-, -, hreg⟩ := h
          intro k
          by_cases hk : k = t
          · subst hk
            refine Or.inr ⟨tp, tms, pms, hl, hres, ?_⟩
            rw [← hreg]
            exact lookupA_updateA_self registry k _ _ hl
          · refine Or.inl ?_
            rw [← hreg]
            exact lookupA_updateA_ne registry t k _ hk

theorem processProtocol_regStep (gattrs : List (String × Attribute))
    (targetTerm : List (String × TargetTerms)) (registry : Registry)
    (p : AssayProtocol) (rows : List AssaySpec) (registry' : Registry)
    (h : processProtocol gattrs targetTerm registry p = .ok (rows, registry')) :
    RegStep gattrs registry registry' := by
  simp only [processProtocol] at h
  cases hat : applyTemplate gattrs registry p.templateId with
  | error e =>
    simp only [hat] at h
    exact Except.noConfusion h
  | ok val =>
    obtain ⟨base, tmplReadouts, registry2⟩ := val
    simp only [hat] at h
    cases hps : protocolStep gattrs base tmplReadouts p with
    | error e =>
      simp only [hps] at h
      exact Except.noConfusion h
    | ok val2 =>
      obtain ⟨spec, readouts⟩ := val2
      simp only [hps] at h
      cases hrl : readoutsLoop gattrs targetTerm spec p.assays readouts.enum [] with
      | error e =>
        simp only [hrl] at h
        exact Except.noConfusion h
      | ok rows0 =>
        simp only [hrl, Except.ok.injEq, Prod.mk.injEq] at h
        obtain ⟨-, hreg⟩ := h
        rw [← hreg]
        exact applyTemplate_regStep gattrs registry p.templateId base tmplReadouts registry2 hat

theorem protocolsLoop_regStep (gattrs : List (String × Attribute))
    (targetTerm : List (String × TargetTerms)) :
    ∀ (ps : List AssayProtocol) (acc : List AssaySpec) (registry : Registry)
      (rows : List AssaySpec) (regF : Registry),
      protocolsLoop gattrs targetTerm ps acc registry = .ok (rows, regF) →
      RegStep gattrs registry regF := by
  intro ps
  induction ps with
  | nil =>
    intro acc registry rows regF h
    simp only [protocolsLoop, Except.ok.injEq, Prod.mk.injEq] at h
    obtain ⟨-, hreg⟩ := h
    rw [hreg] at *
    exact RegStep.refl gattrs regF
  | cons p rest ih =>
    intro acc registry rows regF h
    simp only [protocolsLoop] at h
    cases hpp : processProtocol gattrs targetTerm registry p with
    | error e =>
      simp only [hpp] at h
      exact Except.noConfusion h
    | ok val =>
      obtain ⟨rows0, reg0⟩ := val
      simp only [hpp] at h
      exact RegStep.trans
        (processProtocol_regStep gattrs targetTerm registry p rows0 reg0 hpp)
        (ih (acc ++ rows0) reg0 rows regF h)

/-! ## Lemmas: datasource slicing -/

theorem buildSubExps_ok (ridx : Nat) (subs : List SubExperiment)
    (hlen : ∀ se ∈ subs, ridx < se.subExpValues.length) :
    ∃ l, buildSubExps ridx subs = .ok l := by
  induction subs with
  | nil => exact ⟨[], rfl⟩
  | cons se rest ih =>
    have hse := hlen se (List.mem_cons_self se rest)
    have hrest : ∀ s ∈ rest, ridx < s.subExpValues.length :=
      fun s hs => hlen s (List.mem_cons_of_mem se hs)
    obtain ⟨l, hl⟩ := ih hrest
    obtain ⟨v, hv⟩ : ∃ v, se.subExpValues.get? ridx = some v :=
      ⟨se.subExpValues.get ⟨ridx, hse⟩, List.get?_eq_get hse⟩
    refine ⟨{ subExpKey := se.subExpKey, subExpValue := v } :: l, ?_⟩
    simp only [buildSubExps, listIndex, hv, hl]

theorem sliceDatasource_screener_some (d : DataSource) (i : Nat) (v : Int)
    (hsrc : d.sourceType = .screener)
    (hget : d.layerIndices.get? i = some (some v))
    (hlen : ∀ se ∈ d.subExperiments, i < se.subExpValues.length) :
    ∃ row, sliceDatasource i d = .ok (some row) ∧
      row.sourceType = .screener ∧ row.sessionId = d.sessionId ∧
      row.layerIndex = some v ∧ row.sampleMapping = d.sampleMapping := by
  by_cases hsub : d.subExperiments ≠ []
  · obtain ⟨l, hl⟩ := buildSubExps_ok i d.subExperiments hlen
    refine ⟨{ sourceType := .screener, sessionId := d.sessionId, layerIndex := some v,
              subExperiment := l, sampleMapping := d.sampleMapping },
            ?_, rfl, rfl, rfl, rfl⟩
    simp only [sliceDatasource, hsrc, listIndex, hget, hl]
    rw [if_pos hsub]
  · refine ⟨{ sourceType := .screener, sessionId := d.sessionId, layerIndex := some v,
              subExperiment := [], sampleMapping := d.sampleMapping },
            ?_, rfl, rfl, rfl, rfl⟩
    simp only [sliceDatasource, hsrc, listIndex, hget]
    rw [if_neg hsub]

theorem sliceDatasource_screener_none (d : DataSource) (i : Nat)
    (hsrc : d.sourceType = .screener)
    (hget : d.layerIndices.get? i = some none) :
    sliceDatasource i d = .ok none := by
  simp only [sliceDatasource, hsrc, listIndex, hget]

theorem sliceDatasource_csv_some (d : DataSource) (i : Nat) (c : String)
    (hsrc : d.sourceType = .csv)
    (hget : d.valueColumns.get? i = some (some c)) :
    sliceDatasource i d = .ok (some
      { sourceType := .csv, sourcePath := d.sourcePath,
        sampleIdColumn := d.sampleIdColumn, valueColumn := some c,
        sampleMapping := d.sampleMapping }) := by
  simp only [sliceDatasource, hsrc, listIndex, hget]

theorem sliceDatasource_csv_none (d : DataSource) (i : Nat)
    (hsrc : d.sourceType = .csv)
    (hget : d.valueColumns.get? i = some none) :
    sliceDatasource i d = .ok none := by
  simp only [sliceDatasource, hsrc, listIndex, hget]

theorem assayBody_skip (gattrs : List (String × Attribute)) (sp : ReadoutSpec)
    (ridx : Nat) (asy : Assay)
    (h : sliceDatasources ridx asy.datasources = .ok []) :
    assayBody gattrs sp ridx asy = .ok none := by
  simp [assayBody, h]

/-! ## Lemmas: unresolved attribute references -/

theorem resolveAttrsLoop_missing (gattrs : List (String × Attribute)) :
    ∀ (l : List String) (acc : List String × List Param),
      (∃ a ∈ l, lookupA gattrs a = none) →
      ∃ a, a ∈ l ∧ lookupA gattrs a = none ∧
        resolveAttrsLoop gattrs l acc = .error (.keyError a) := by
  intro l
  induction l with
  | nil =>
    intro acc h
    obtain ⟨a, ha, -⟩ := h
    exact absurd ha (List.not_mem_nil a)
  | cons aid rest ih =>
    intro acc h
    cases hl : lookupA gattrs aid with
    | none =>
      exact ⟨aid, List.mem_cons_self aid rest, hl, by
        simp only [resolveAttrsLoop, hl]⟩
    | some attr =>
      obtain ⟨a, ha, hnone⟩ := h
      have harest : a ∈ rest := by
        rcases List.mem_cons.mp ha with rfl | hr
        · rw [hl] at hnone
          exact absurd hnone (by simp)
        · exact hr
      obtain ⟨b, hb, hbnone, hbeq⟩ := ih
        (acc.1 ++ attr.terms.map (fun t => t.1), acc.2 ++ attr.parameters)
        ⟨a, harest, hnone⟩
      exact ⟨b, List.mem_cons_of_mem aid hb, hbnone, by
        simp only [resolveAttrsLoop, hl, hbeq]⟩

theorem resolve_attributes_missing (gattrs : List (String × Attribute))
    (terms : List TermPair) (parameters : List Param) (attributes : List String)
    (h : ∃ a ∈ attributes, lookupA gattrs a = none) :
    ∃ a, a ∈ attributes ∧ lookupA gattrs a = none ∧
      resolve_attributes gattrs terms parameters attributes = .error (.keyError a) := by
  unfold resolve_attributes
  exact resolveAttrsLoop_missing gattrs attributes
    (terms.map (fun t => t.1), parameters) h

/-! ## Claim theorems -/

/-- C1 (counterexample): the merge engine is not pure.  On a concrete
input the run succeeds, yet the template registry that `generate_assays`
leaves behind differs from the loaded registry it was given: the
referenced template's record was rewritten in place by attribute
resolution (parser.py line 161). -/
theorem c1_not_pure_counterexample :
    generate_assays [protoMut] regMut0 [] [] = .ok ([], regMut1) ∧
    regMut1 ≠ regMut0 :=
  ⟨rfl, by decide⟩

/-- C1 (amended): `generate_assays` is deterministic as a function of
its input values, but every run either raises an exception or returns
an empty row list (the readout loop always fails with
`KeyError("readoutType")`, parser.py line 202), so the claimed nested
output ordering holds only vacuously. -/
theorem c1_deterministic_but_empty :
    ∀ (protocols : List AssayProtocol) (templates : Registry)
      (attributes : List (String × Attribute))
      (target_term : List (String × TargetTerms)),
      (∃ e, generate_assays protocols templates attributes target_term = .error e) ∨
      (∃ regF, generate_assays protocols templates attributes target_term = .ok ([], regF)) := by
  intro ps ts as ttm
  cases h : generate_assays ps ts as ttm with
  | error e => exact Or.inl ⟨e, rfl⟩
  | ok val =>
    obtain ⟨rows, regF⟩ := val
    have hz := generate_assays_ok_rows ps ts as ttm rows regF h
    subst hz
    exact Or.inr ⟨regF, rfl⟩

/-- C2: datasource slicing.  Componentwise, a Screener datasource
contributes a row at readout index `i` iff `layerIndices[i]` is
non-null, a CSV datasource iff `valueColumns[i]` is non-null, a null
slot is silently omitted, and an assay whose datasources all contribute
nothing is silently skipped; on the concrete `[5, null, 7]` example the
slicer contributes rows exactly for indices 0 and 2.  But at the level
of `generate_assays` the claimed output rows never materialize: the
concrete three-readout input fails with `KeyError("readoutType")`
(parser.py line 202) before any assay is processed. -/
theorem c2_datasource_slicing :
    (∀ (d : DataSource) (i : Nat) (v : Int), d.sourceType = .screener →
      d.layerIndices.get? i = some (some v) →
      (∀ se ∈ d.subExperiments, i < se.subExpValues.length) →
      ∃ row, sliceDatasource i d = .ok (some row) ∧ row.layerIndex = some v) ∧
    (∀ (d : DataSource) (i : Nat), d.sourceType = .screener →
      d.layerIndices.get? i = some none → sliceDatasource i d = .ok none) ∧
    (∀ (d : DataSource) (i : Nat) (c : String), d.sourceType = .csv →
      d.valueColumns.get? i = some (some c) →
      ∃ row, sliceDatasource i d = .ok (some row) ∧ row.valueColumn = some c) ∧
    (∀ (d : DataSource) (i : Nat), d.sourceType = .csv →
      d.valueColumns.get? i = some none → sliceDatasource i d = .ok none) ∧
    (∀ (gattrs : List (String × Attribute)) (sp : ReadoutSpec) (ridx : Nat)
      (asy : Assay), sliceDatasources ridx asy.datasources = .ok [] →
      assayBody gattrs sp ridx asy = .ok none) ∧
    (sliceDatasources 0 [dsScr3] =
      .ok [{ sourceType := .screener, sessionId := some "sess1", layerIndex := some 5 }] ∧
     sliceDatasources 1 [dsScr3] = .ok [] ∧
     sliceDatasources 2 [dsScr3] =
      .ok [{ sourceType := .screener, sessionId := some "sess1", layerIndex := some 7 }]) ∧
    generate_assays [protoSlice] [] [] [] = .error (.keyError "readoutType") := by
  refine ⟨?_, ?_, ?_, ?_, ?_, ⟨rfl, rfl, rfl⟩, rfl⟩
  · intro d i v hsrc hget hlen
    obtain ⟨row, hrow, -, -, hidx, -⟩ := sliceDatasource_screener_some d i v hsrc hget hlen
    exact ⟨row, hrow, hidx⟩
  · exact fun d i hsrc hget => sliceDatasource_screener_none d i hsrc hget
  · intro d i c hsrc hget
    exact ⟨_, sliceDatasource_csv_some d i c hsrc hget, rfl⟩
  · exact fun d i hsrc hget => sliceDatasource_csv_none d i hsrc hget
  · exact fun gattrs sp ridx asy h => assayBody_skip gattrs sp ridx asy h

/-- C2 (witness): the slicing facts instantiated on the concrete
`layerIndices = [5, null, 7]` datasource at readout indices 0 and 1. -/
theorem c2_witness :
    (∃ row, sliceDatasource 0 dsScr3 = .ok (some row) ∧ row.layerIndex = some 5) ∧
    sliceDatasource 1 dsScr3 = .ok none :=
  ⟨c2_datasource_slicing.1 dsScr3 0 5 rfl rfl
      (by intro se hse; simp [dsScr3] at hse),
   c2_datasource_slicing.2.1 dsScr3 1 rfl rfl⟩

/-- C3: a protocol that resolves to zero readouts while declaring
assays makes the merge fail with
`ValueError("Assays defined but no readouts found.")` before any row is
produced for it (parser.py lines 180-181). -/
theorem c3_fail_fast (gattrs : List (String × Attribute))
    (targetTerm : List (String × TargetTerms)) (registry : Registry)
    (p : AssayProtocol) (base : SpecBase) (ros : List Readout)
    (registry' : Registry) (ptms : List String) (ppms : List Param)
    (h1 : applyTemplate gattrs registry p.templateId = .ok (base, ros, registry'))
    (h2 : resolve_attributes gattrs p.terms p.parameters p.attributes = .ok (ptms, ppms))
    (h3 : (if p.readouts ≠ [] then p.readouts else ros) = [])
    (h4 : p.assays ≠ []) :
    processProtocol gattrs targetTerm registry p =
      .error (.valueError "Assays defined but no readouts found.") ∧
    generate_assays [p] registry gattrs targetTerm =
      .error (.valueError "Assays defined but no readouts found.") := by
  have hp : protocolStep gattrs base ros p =
      .error (.valueError "Assays defined but no readouts found.") := by
    simp only [protocolStep, h2]
    rw [h3, if_pos ⟨rfl, h4⟩]
  have hpp : processProtocol gattrs targetTerm registry p =
      .error (.valueError "Assays defined but no readouts found.") := by
    simp only [processProtocol, h1, hp]
  refine ⟨hpp, ?_⟩
  simp only [generate_assays, protocolsLoop, hpp]

/-- C3 (witness): a protocol deriving from a template with no readouts,
itself declaring no readouts but one assay, makes the whole run fail
with the configuration error. -/
theorem c3_witness :
    generate_assays [protoNoRo] regEmpty0 [] [] =
      .error (.valueError "Assays defined but no readouts found.") :=
  (c3_fail_fast [] [] regEmpty0 protoNoRo
    { targets := [], terms := [], parameters := [] } [] regEmpty1 [] []
    rfl rfl rfl (by decide)).2

/-- C4: parameter dedup.  Componentwise, the finalization of
parser.py lines 242-249 keeps, for each `(category, name)` key, exactly
the most recently appended (most specific) occurrence, preserving the
ascending specificity order of the kept occurrences, and on the
concrete pH example the assay-level 6.5 wins over the template-level
7.0.  But no finalized output row ever exists: the concrete pH input
fails with `KeyError("readoutType")` (parser.py line 202) before any
row is finalized. -/
theorem c4_parameter_override :
    (∀ ps : List Param, overrideParams ps = keepMostSpecific ps) ∧
    (∀ ps : List Param, ((overrideParams ps).map paramKey).Nodup) ∧
    (∀ (ps : List Param) (p : Param), p ∈ overrideParams ps → p ∈ ps) ∧
    (∀ (ps : List Param) (p : Param), p ∈ ps →
      paramKey p ∈ (overrideParams ps).map paramKey) ∧
    overrideParams [("pH", "pH", "7.0", none), ("pH", "pH", "6.5", none)] =
      [("pH", "pH", "6.5", none)] ∧
    generate_assays [protoPH] [("t-ph", .loaded tmplPH)] [] [] =
      .error (.keyError "readoutType") := by
  refine ⟨overrideParams_eq_keepMostSpecific, ?_, ?_, ?_, rfl, rfl⟩
  · intro ps
    rw [overrideParams_eq_keepMostSpecific]
    exact keepMostSpecific_keys_nodup ps
  · intro ps p hp
    rw [overrideParams_eq_keepMostSpecific] at hp
    exact keepMostSpecific_subset ps p hp
  · intro ps p hp
    rw [overrideParams_eq_keepMostSpecific]
    exact keepMostSpecific_covers ps p hp

/-- C4 (witness): the dedup facts instantiated on the concrete pH
example: the kept 6.5 entry is one of the accumulated entries. -/
theorem c4_witness :
    (("pH", "pH", "6.5", none) : Param) ∈
      ([("pH", "pH", "7.0", none), ("pH", "pH", "6.5", none)] : List Param) :=
  c4_parameter_override.2.2.1
    [("pH", "pH", "7.0", none), ("pH", "pH", "6.5", none)]
    ("pH", "pH", "6.5", none) (by decide)

/-- C5: term dedup.  Componentwise, the finalization of
parser.py lines 240-241 produces a strictly lexicographically sorted,
duplicate-free list with exactly the accumulated members, and
`[t3, t1, t3, t2]` resolves to `[t1, t2, t3]`.  But no finalized output
row ever exists: the concrete input fails with
`KeyError("readoutType")` (parser.py line 202) before any row is
finalized. -/
theorem c5_terms_sorted_unique :
    (∀ ts : List String, (sortDedup ts).Sorted (· < ·)) ∧
    (∀ ts : List String, (sortDedup ts).Nodup) ∧
    (∀ (ts : List String) (a : String), a ∈ sortDedup ts ↔ a ∈ ts) ∧
    sortDedup ["t3", "t1", "t3", "t2"] = ["t1", "t2", "t3"] ∧
    generate_assays [protoTerms] [] [] [] = .error (.keyError "readoutType") :=
  ⟨sortDedup_sorted, sortDedup_nodup, fun ts a => mem_sortDedup a ts, rfl, rfl⟩

/-- C5 (witness): the membership characterization instantiated on the
concrete `[t3, t1, t3, t2]` example. -/
theorem c5_witness :
    ("t1" ∈ sortDedup ["t3", "t1", "t3", "t2"]) ↔
      ("t1" ∈ ["t3", "t1", "t3", "t2"]) :=
  c5_terms_sorted_unique.2.2.1 ["t3", "t1", "t3", "t2"] "t1"

/-- C6: protocol-level override semantics over a template baseline
(parser.py lines 171-179): a non-empty protocol-level `targets` list
replaces the baseline's targets and an empty one leaves them unchanged,
while the protocol's (attribute-resolved) terms and parameters are
appended to the baseline's, so every template-contributed term and
parameter is still present after the protocol-level step. -/
theorem c6_protocol_override (gattrs : List (String × Attribute))
    (registry : Registry) (tid : String) (base : SpecBase) (ros : List Readout)
    (registry' : Registry) (p : AssayProtocol) (ptms : List String)
    (ppms : List Param)
    (_h0 : applyTemplate gattrs registry (some tid) = .ok (base, ros, registry'))
    (h2 : resolve_attributes gattrs p.terms p.parameters p.attributes = .ok (ptms, ppms))
    (h3 : ¬ ((if p.readouts ≠ [] then p.readouts else ros) = [] ∧ p.assays ≠ [])) :
    ∃ spec readouts, protocolStep gattrs base ros p = .ok (spec, readouts) ∧
      (p.targets ≠ [] → spec.targets = p.targets) ∧
      (p.targets = [] → spec.targets = base.targets) ∧
      spec.terms = base.terms ++ ptms ∧
      spec.parameters = base.parameters ++ ppms ∧
      (∀ t ∈ base.terms, t ∈ spec.terms) ∧
      (∀ q ∈ base.parameters, q ∈ spec.parameters) := by
  refine ⟨{ targets := if p.targets ≠ [] then p.targets else base.targets,
            terms := base.terms ++ ptms,
            parameters := base.parameters ++ ppms,
            protocolId := p.protocolId },
          if p.readouts ≠ [] then p.readouts else ros, ?_, ?_, ?_, rfl, rfl, ?_, ?_⟩
  · simp only [protocolStep, h2]
    rw [if_neg h3]
  · intro h
    rw [if_pos h]
  · intro h
    rw [if_neg (fun hne => hne h)]
  · exact fun t ht => List.mem_append_left ptms ht
  · exact fun q hq => List.mem_append_left ppms hq

/-- C6 (witness): a template carrying a target, a term, a parameter and
an attribute reference, overridden by a protocol with its own target,
term and parameter. -/
theorem c6_witness :
    ∃ spec readouts,
      protocolStep [("atr1", attrC6)] baseC6 [] protoC6 = .ok (spec, readouts) ∧
      (protoC6.targets ≠ [] → spec.targets = protoC6.targets) ∧
      (protoC6.targets = [] → spec.targets = baseC6.targets) ∧
      spec.terms = baseC6.terms ++ ["GO:0003"] ∧
      spec.parameters = baseC6.parameters ++ [("pH", "pH", "7.4", none)] ∧
      (∀ t ∈ baseC6.terms, t ∈ spec.terms) ∧
      (∀ q ∈ baseC6.parameters, q ∈ spec.parameters) :=
  c6_protocol_override [("atr1", attrC6)] regC6 "t-c6" baseC6 [] regC6'
    protoC6 ["GO:0003"] [("pH", "pH", "7.4", none)] rfl rfl (by decide)

/-- C7: per-readout sub-experiment values.  A contributing Screener row
does carry each declared sub-experiment key with the value at the
readout index; but a null value at that index is copied as `None` into
the row and then *fails* validation (`AssaySpecSubExperiment.subExpValue`
is a required `str`, model.py lines 137-139), rather than being
omitted; and a CSV row never carries sub-experiment values even when
the datasource declares them (parser.py lines 222-227 ignore
`subExperiments`).  Moreover at the level of `generate_assays` no row
is ever emitted at all: the concrete input fails with
`KeyError("readoutType")` (parser.py line 202). -/
theorem c7_subexperiment_values :
    sliceDatasource 0 dsSub = .ok (some
      { sourceType := .screener, sessionId := some "s7", layerIndex := some 2,
        subExperiment := [{ subExpKey := "day", subExpValue := some "d1" }] }) ∧
    sliceDatasource 0 dsSubNone = .ok (some
      { sourceType := .screener, sessionId := some "s7", layerIndex := some 2,
        subExperiment := [{ subExpKey := "day", subExpValue := none }] }) ∧
    validateSubExps [{ subExpKey := "day", subExpValue := none }] =
      .error (.validationError
        "subExperiment.subExpValue: Input should be a valid string") ∧
    validateRowData
      { sourceType := .screener, sessionId := some "s7", layerIndex := some 2,
        subExperiment := [{ subExpKey := "day", subExpValue := none }] } =
      .error (.validationError
        "subExperiment.subExpValue: Input should be a valid string") ∧
    sliceDatasource 0 dsCsvSub = .ok (some
      { sourceType := .csv, sourcePath := some "data.csv",
        sampleIdColumn := some "id", valueColumn := some "val" }) ∧
    generate_assays [protoSub] [] [] [] = .error (.keyError "readoutType") :=
  ⟨rfl, rfl, rfl, rfl, rfl, rfl⟩

/-- C8 (counterexample): an unresolved attribute reference fails with a
bare `KeyError` carrying only the missing attributeId
(parser.py line 131); the error does not mention the owning protocol's
identifier. -/
theorem c8_counterexample :
    generate_assays [protoMiss] [] [] [] = .error (.keyError "a-miss") ∧
    strMentions "a-miss" "p1" = false :=
  ⟨rfl, rfl⟩

/-- C8 (amended): attribute resolution over a fragment referencing a
missing attributeId fails with `KeyError(attrid)` naming one of the
missing ids (the first one in list order), and nothing else. -/
theorem c8_missing_attribute (gattrs : List (String × Attribute))
    (terms : List TermPair) (parameters : List Param) (attributes : List String)
    (h : ∃ a ∈ attributes, lookupA gattrs a = none) :
    ∃ a, a ∈ attributes ∧ lookupA gattrs a = none ∧
      resolve_attributes gattrs terms parameters attributes =
        .error (.keyError a) :=
  resolve_attributes_missing gattrs terms parameters attributes h

/-- C8 (witness): the missing-attribute failure instantiated on a
concrete fragment referencing the absent id `a-miss`. -/
theorem c8_witness :
    ∃ a, a ∈ ["a-miss"] ∧ lookupA ([] : List (String × Attribute)) a = none ∧
      resolve_attributes [] [] [] ["a-miss"] = .error (.keyError a) :=
  c8_missing_attribute [] [] [] ["a-miss"]
    ⟨"a-miss", List.mem_singleton.mpr rfl, rfl⟩

/-- C9 (counterexample): the template registry is not read-only during
the merge.  On a concrete input the run succeeds and the stored record
of the referenced template has been rewritten in place: its
`(id, name)` term pairs became bare ids and its parameters the
attribute-resolved list (parser.py lines 129 and 161). -/
theorem c9_counterexample :
    generate_assays [protoRO] regRO0 [] [] = .ok ([], regRO1) ∧
    regRO1 ≠ regRO0 :=
  ⟨rfl, by decide⟩

/-- C9 (amended): after a successful run, every template-registry entry
is either unchanged or has been replaced in place by exactly the
attribute-resolved version of its loaded state; the attribute registry
itself is never written. -/
theorem c9_registry_mutation (protocols : List AssayProtocol)
    (templates : Registry) (attributes : List (String × Attribute))
    (target_term : List (String × TargetTerms)) (rows : List AssaySpec)
    (regF : Registry)
    (h : generate_assays protocols templates attributes target_term = .ok (rows, regF)) :
    RegStep attributes templates regF :=
  protocolsLoop_regStep attributes target_term protocols [] templates rows regF h

/-- C9 (witness): the registry-evolution characterization instantiated
on the concrete mutating run. -/
theorem c9_witness : RegStep [] regRO0 regRO1 :=
  c9_registry_mutation [protoRO] regRO0 [] [] [] regRO1 rfl

/-- C10: concentration unit conversion.  5 uM does convert to 5e-6 M
and a negative value does raise `ValueError`, but converting 1000 with
unit `dilution` raises `TypeError: 'dict' object is not callable`
instead of returning (0.001, "ratio"): util.py line 18 calls the
`gl_factor` dict (`unit in gl_factor()`), so every non-molar branch is
unreachable. -/
theorem c10_conc_units :
    convert_conc_units 5 "uM" = .ok (5 / 1000000, "M") ∧
    convert_conc_units 1000 "dilution" =
      .error (.typeError "dict object is not callable") ∧
    convert_conc_units (-5) "uM" =
      .error (.valueError "concentration should be a positive value") := by
  refine ⟨?_, rfl, rfl⟩
  norm_num [convert_conc_units, molUnitFactor]
